import Mathlib

/-!
Verification of the rootpy canvas/io wrapper layer.

This file gives a shallow embedding of `rootpy/plotting/canvas.py` and
`rootpy/io.py` and proves the specified properties about them.  The native
ROOT toolkit (window sizing, file open/get primitives) is out of scope of
the repository and is modelled by explicit oracle parameters; rootpy
modules that the two source files import but that are not part of the
sources here (`asrootpy`, `keepalive`, `invisible_canvas`, the `Hist`
classes) are modelled from the specification, as marked in their doc
comments.  Python floats are modelled as exact rationals and Python `int()`
as truncation toward zero.
-/

/-- Python `int()` applied to a rational: truncation toward zero. -/
def pyInt (q : ℚ) : ℤ := if 0 ≤ q then ⌊q⌋ else ⌈q⌉

/-- A drawable surface: a top-level `Canvas` carrying its pixel size
(`GetWw`/`GetWh`), or a `Pad` carrying its normalized size within its
mother (`GetWNDC`/`GetHNDC`) and a reference to its mother surface.
The owning canvas (`GetCanvas`) of a pad is the root of its mother
chain. -/
inductive Surface : Type
  | canvas (ww wh : ℤ)
  | pad (wndc hndc : ℚ) (mother : Surface)

/-- The `while mother is not canvas` loop of `Pad.width_pixels`, started
at surface `m` with accumulated width `w`: multiply the mother's
normalized width at each level, and on reaching the canvas scale by the
canvas pixel width (`mother.width`). -/
def loopW : Surface → ℚ → ℚ
  | .canvas ww _, w => w * (ww : ℚ)
  | .pad wndc _ m, w => loopW m (w * wndc)

/-- The corresponding loop of `Pad.height_pixels`. -/
def loopH : Surface → ℚ → ℚ
  | .canvas _ wh, h => h * (wh : ℚ)
  | .pad _ hndc m, h => loopH m (h * hndc)

/-- `Pad.width_pixels` / `Canvas.width_pixels`: a canvas reports its own
pixel width; a pad walks the mother chain accumulating normalized widths
and truncates the scaled result with `int()`. -/
def Surface.width_pixels : Surface → ℤ
  | .canvas ww _ => ww
  | .pad wndc _ m => pyInt (loopW m wndc)

/-- `Pad.height_pixels` / `Canvas.height_pixels`. -/
def Surface.height_pixels : Surface → ℤ
  | .canvas _ wh => wh
  | .pad _ hndc m => pyInt (loopH m hndc)

/-- Build a chain of pads with the given (normalized width, normalized
height) pairs, innermost first, on top of surface `c`. -/
def nestPads : List (ℚ × ℚ) → Surface → Surface
  | [], c => c
  | (w, h) :: rest, c => .pad w h (nestPads rest c)

/-- Number of pad levels above the given surface's own level, i.e. the
number of loop iterations before the mother-chain walk reaches the
canvas. -/
def Surface.padDepth : Surface → ℕ
  | .canvas _ _ => 0
  | .pad _ _ m => m.padDepth + 1

/-- Fuel-indexed version of the `width_pixels` mother-chain walk: each
loop-condition check consumes one unit of fuel, and the walk exits only
when the current surface is the canvas. -/
def loopWFuel : ℕ → Surface → ℚ → Option ℚ
  | 0, _, _ => none
  | _ + 1, .canvas ww _, w => some (w * (ww : ℚ))
  | n + 1, .pad wndc _ m, w => loopWFuel n m (w * wndc)

/-- Fuel-indexed version of the `height_pixels` mother-chain walk. -/
def loopHFuel : ℕ → Surface → ℚ → Option ℚ
  | 0, _, _ => none
  | _ + 1, .canvas _ wh, h => some (h * (wh : ℚ))
  | n + 1, .pad _ hndc m, h => loopHFuel n m (h * hndc)

lemma loopW_nestPads (ps : List (ℚ × ℚ)) (c : Surface) (w : ℚ) :
    loopW (nestPads ps c) w = loopW c (w * (ps.map Prod.fst).prod) := by
  induction ps generalizing w with
  | nil => simp [nestPads]
  | cons p rest ih =>
      obtain ⟨a, b⟩ := p
      simp only [nestPads, loopW, ih, List.map_cons, List.prod_cons]
      ring_nf

lemma loopH_nestPads (ps : List (ℚ × ℚ)) (c : Surface) (h : ℚ) :
    loopH (nestPads ps c) h = loopH c (h * (ps.map Prod.snd).prod) := by
  induction ps generalizing h with
  | nil => simp [nestPads]
  | cons p rest ih =>
      obtain ⟨a, b⟩ := p
      simp only [nestPads, loopH, ih, List.map_cons, List.prod_cons]
      ring_nf

/-- Claim C1: For a pad whose mother chain up to (but excluding) the owning
canvas carries normalized widths `w1, ..., wn` (the pad's own width
first), `width_pixels` equals `int(w1 * ... * wn * W)` where `W` is the
canvas pixel width, and symmetrically for `height_pixels` with the canvas
pixel height; in particular for a pad nested two levels under the canvas,
`width_pixels = int(w1*w2*W)` and `height_pixels = int(h1*h2*H)`. -/
theorem width_pixels_eq_prod (w1 h1 : ℚ) (ps : List (ℚ × ℚ)) (W H : ℤ) :
    (nestPads ((w1, h1) :: ps) (.canvas W H)).width_pixels
        = pyInt (((((w1, h1) :: ps).map Prod.fst).prod) * (W : ℚ))
      ∧ (nestPads ((w1, h1) :: ps) (.canvas W H)).height_pixels
        = pyInt (((((w1, h1) :: ps).map Prod.snd).prod) * (H : ℚ))
      ∧ ∀ w2 h2 : ℚ,
        (Surface.pad w1 h1 (.pad w2 h2 (.canvas W H))).width_pixels
          = pyInt (w1 * w2 * (W : ℚ))
        ∧ (Surface.pad w1 h1 (.pad w2 h2 (.canvas W H))).height_pixels
          = pyInt (h1 * h2 * (H : ℚ)) := by
  refine ⟨?_, ?_, ?_⟩
  · simp only [nestPads, Surface.width_pixels, loopW_nestPads,
      List.map_cons, List.prod_cons, loopW]
  · simp only [nestPads, Surface.height_pixels, loopH_nestPads,
      List.map_cons, List.prod_cons, loopH]
  · intro w2 h2
    exact ⟨rfl, rfl⟩

/-- Claim C9: For every pad (whose mother chain, by construction of the
surface tree, reaches its owning canvas) the mother-chain walks of
`width_pixels` and `height_pixels` terminate: with fuel equal to the
number of mother-chain levels plus one the fuel-indexed loops return the
result of the structural walk, and with one unit less they run out —
i.e. the loop exits exactly when the current surface equals the
canvas. -/
theorem mother_chain_walk_terminates (s : Surface) (w h : ℚ) :
    loopWFuel (s.padDepth + 1) s w = some (loopW s w)
      ∧ loopHFuel (s.padDepth + 1) s h = some (loopH s h)
      ∧ loopWFuel s.padDepth s w = none
      ∧ loopHFuel s.padDepth s h = none := by
  induction s generalizing w h with
  | canvas ww wh => simp [Surface.padDepth, loopWFuel, loopHFuel, loopW, loopH]
  | pad wndc hndc m ih =>
      refine ⟨?_, ?_, ?_, ?_⟩
      · simpa [Surface.padDepth, loopWFuel, loopW] using (ih (w * wndc) h).1
      · simpa [Surface.padDepth, loopHFuel, loopH] using (ih w (h * hndc)).2.1
      · simpa [Surface.padDepth, loopWFuel] using (ih (w * wndc) h).2.2.1
      · simpa [Surface.padDepth, loopHFuel] using (ih w (h * hndc)).2.2.2

/-! The `_PadBase.axes` method (canvas.py lines 32-82). -/

/-- An axis object as far as this layer touches it: the display-range
override applied via `axis.limits = ...` (absent when no limits were
given). -/
structure Axis : Type where
  limits : Option (ℚ × ℚ)
deriving DecidableEq

/-- Modelled from the spec: the `Hist`/`Hist2D`/`Hist3D` constructors
live in `rootpy/plotting/hist.py`, which is not among the sources; per
the spec, `axes` "constructs an invisible 1/2/3-dimensional histogram
skeleton scaled to the requested bin counts".  We record which
constructor was invoked and with which positional arguments. -/
inductive HistSpec : Type
  | h1 (xbins : ℕ) (xlo xhi : ℚ)
  | h2 (xbins : ℕ) (xlo xhi : ℚ) (ybins : ℕ) (ylo yhi : ℚ)
  | h3 (xbins : ℕ) (xlo xhi : ℚ) (ybins : ℕ) (ylo yhi : ℚ)
       (zbins : ℕ) (zlo zhi : ℚ)
deriving DecidableEq

/-- A primitive drawn on a pad: the histogram skeleton together with the
draw option string passed to `Draw`. -/
structure Drawn : Type where
  hist : HistSpec
  option : String
deriving DecidableEq

/-- The pad state this layer can affect: the ordered list of drawn
primitives. -/
structure PadState : Type where
  prims : List Drawn
deriving DecidableEq

/-- `_PadBase.axes`: dispatch on `ndim`, build the histogram skeleton
(axis ranges default to `(0, 1)` and are overridden by the given
limits), draw it with option `'AXIS'`, set the axis display-range
overrides, and return the new pad state with the axis objects — or fail
with `ValueError` for any other `ndim`, before anything is drawn. -/
def PadBase.axes (ndim : ℤ) (xlimits ylimits zlimits : Option (ℚ × ℚ))
    (xbins ybins zbins : ℕ) (st : PadState) :
    Except String (PadState × List Axis) :=
  if ndim = 1 then
    let hist : HistSpec :=
      match xlimits with
      | some (lo, hi) => .h1 xbins lo hi
      | none => .h1 xbins 0 1
    Except.ok (⟨st.prims ++ [⟨hist, "AXIS"⟩]⟩, [⟨xlimits⟩, ⟨ylimits⟩])
  else if ndim = 2 then
    let xr := xlimits.getD (0, 1)
    let yr := ylimits.getD (0, 1)
    let hist : HistSpec := .h2 xbins xr.1 xr.2 ybins yr.1 yr.2
    Except.ok (⟨st.prims ++ [⟨hist, "AXIS"⟩]⟩, [⟨xlimits⟩, ⟨ylimits⟩, ⟨zlimits⟩])
  else if ndim = 3 then
    let xr := xlimits.getD (0, 1)
    let yr := ylimits.getD (0, 1)
    let zr := zlimits.getD (0, 1)
    let hist : HistSpec :=
      .h3 xbins xr.1 xr.2 ybins yr.1 yr.2 zbins zr.1 zr.2
    Except.ok (⟨st.prims ++ [⟨hist, "AXIS"⟩]⟩, [⟨xlimits⟩, ⟨ylimits⟩, ⟨zlimits⟩])
  else
    Except.error "ndim must be 1, 2, or 3"

/-- Claim C2: `axes` with `ndim = 1` succeeds with exactly 2 axis objects;
with `ndim = 2` or `ndim = 3` it succeeds with exactly 3; for every other
`ndim` it fails with the `ValueError` and leaves no partial state: no
histogram is drawn (the error carries no pad state) and no axis objects
are returned. -/
theorem axes_arity (ndim : ℤ) (xl yl zl : Option (ℚ × ℚ))
    (xb yb zb : ℕ) (st : PadState) :
    (ndim = 1 →
      ∃ st2 axs, PadBase.axes ndim xl yl zl xb yb zb st = .ok (st2, axs)
        ∧ axs.length = 2)
    ∧ (ndim = 2 ∨ ndim = 3 →
      ∃ st2 axs, PadBase.axes ndim xl yl zl xb yb zb st = .ok (st2, axs)
        ∧ axs.length = 3)
    ∧ (ndim ≠ 1 → ndim ≠ 2 → ndim ≠ 3 →
      PadBase.axes ndim xl yl zl xb yb zb st
        = .error "ndim must be 1, 2, or 3") := by
  refine ⟨?_, ?_, ?_⟩
  · rintro rfl
    cases xl with
    | none => exact ⟨_, _, rfl, rfl⟩
    | some p =>
        obtain ⟨lo, hi⟩ := p
        exact ⟨_, _, rfl, rfl⟩
  · rintro (rfl | rfl) <;> exact ⟨_, _, rfl, rfl⟩
  · intro h1 h2 h3
    simp [PadBase.axes, h1, h2, h3]

/-- Witness for claim C2 at concrete inputs: `ndim = 2` yields exactly 3
axis objects and `ndim = 4` fails with the invalid-argument error. -/
theorem axes_arity_witness :
    (∃ st2 axs,
      PadBase.axes 2 none none none 1 1 1 ⟨[]⟩ = .ok (st2, axs)
        ∧ axs.length = 3)
    ∧ PadBase.axes 4 none none none 1 1 1 ⟨[]⟩
        = .error "ndim must be 1, 2, or 3" := by
  constructor
  · exact (axes_arity 2 none none none 1 1 1 ⟨[]⟩).2.1 (Or.inl rfl)
  · exact (axes_arity 4 none none none 1 1 1 ⟨[]⟩).2.2
      (by decide) (by decide) (by decide)

/-! The file wrapper, `rootpy/io.py`. -/

/-- `rootpy.io.open(filename, mode)`: call the native `ROOT.TFile.Open`
with the filename and mode strings unmodified; if the native open yields
a null/invalid handle (`if not file`), raise
`IOError("No such file: '%s'" % filename)`; otherwise return the native
handle.  The native open is an oracle parameter returning `none` for a
null handle. -/
def rootpyOpen {α : Type} (nativeOpen : String → String → Option α)
    (filename mode : String) : Except String α :=
  match nativeOpen filename mode with
  | none => Except.error ("No such file: '" ++ filename ++ "'")
  | some f => Except.ok f

/-- Modelled from the spec: `asrootpy` lives in `rootpy/utils.py`, which
is not among the sources; per the spec, the conversion helper "given a
native drawable/object handle, returns an enhanced wrapper instance of
the appropriate variant, or the original handle unchanged if no mapping
exists".  `convert` is the variant mapping (partial); a null handle
stays null. -/
def asrootpy {α : Type} (convert : α → Option α) : Option α → Option α
  | none => none
  | some x => some ((convert x).getD x)

/-- `File.Get(name)`: fetch the named entity via the native
`ROOT.TFile.Get` with the name unmodified (`none` = null handle when the
entity is absent from the container) and apply the conversion helper to
the result. -/
def File.Get {α : Type} (convert : α → Option α)
    (nativeGet : String → Option α) (name : String) : Option α :=
  asrootpy convert (nativeGet name)

/-- `File.__init__(self, *args, **kwargs)`: forwards only the positional
arguments to `ROOT.TFile.__init__`; the keyword arguments are dropped.
`nativeInit` is the native constructor oracle, `args` the positional
arguments and `kwargs` the keyword arguments. -/
def File.init {α β : Type} (nativeInit : List String → α)
    (args : List String) (kwargs : List (String × β)) : α :=
  nativeInit args

/-- Claim C3: `open` fails if and only if the native open returns a null
handle; the failure message contains the requested path; the path and
mode are passed to the native open unmodified (the error/success outcome
is exactly determined by `nativeOpen filename mode`); and on success the
native handle itself is returned. -/
theorem rootpyOpen_spec {α : Type} (nativeOpen : String → String → Option α)
    (filename mode : String) :
    ((∃ msg, rootpyOpen nativeOpen filename mode = .error msg)
        ↔ nativeOpen filename mode = none)
      ∧ (∀ msg, rootpyOpen nativeOpen filename mode = .error msg →
          ∃ s t, msg = s ++ filename ++ t)
      ∧ (∀ f, nativeOpen filename mode = some f →
          rootpyOpen nativeOpen filename mode = .ok f) := by
  refine ⟨⟨?_, ?_⟩, ?_, ?_⟩
  · rintro ⟨msg, hmsg⟩
    cases h : nativeOpen filename mode with
    | none => rfl
    | some f => rw [rootpyOpen, h] at hmsg; exact absurd hmsg (by simp)
  · intro h
    exact ⟨_, by rw [rootpyOpen, h]⟩
  · intro msg hmsg
    refine ⟨"No such file: '", "'", ?_⟩
    cases h : nativeOpen filename mode with
    | none => rw [rootpyOpen, h] at hmsg; simpa using hmsg.symm
    | some f => rw [rootpyOpen, h] at hmsg; exact absurd hmsg (by simp)
  · intro f h
    rw [rootpyOpen, h]

/-- Witness for claim C3 at a concrete native open: a hit returns the
handle, a miss produces an error whose message contains the path. -/
theorem rootpyOpen_spec_witness :
    rootpyOpen (fun fn md => if fn = "data.root" ∧ md = "READ"
        then some 7 else none) "data.root" "READ" = .ok 7
      ∧ ∃ msg, rootpyOpen (fun fn md => if fn = "data.root" ∧ md = "READ"
          then some (7 : ℕ) else none) "missing.root" "READ" = .error msg
        ∧ ∃ s t, msg = s ++ "missing.root" ++ t := by
  constructor
  · exact (rootpyOpen_spec (fun fn md => if fn = "data.root" ∧ md = "READ"
      then some 7 else none) "data.root" "READ").2.2 7 (by decide)
  · have h := rootpyOpen_spec (fun fn md => if fn = "data.root" ∧ md = "READ"
      then some (7 : ℕ) else none) "missing.root" "READ"
    obtain ⟨msg, hmsg⟩ := h.1.2 (by decide)
    exact ⟨msg, hmsg, h.2.1 msg hmsg⟩

/-- Claim C4: `File.Get` passes the name unmodified to the native fetch
and returns the conversion helper applied to the result — the converted
entity when the variant mapping applies, the raw handle otherwise; when
the named entity is absent from the container (native fetch yields the
null handle) the result is the null handle, i.e. `Get` fails. -/
theorem file_get_spec {α : Type} (convert : α → Option α)
    (nativeGet : String → Option α) (name : String) :
    (nativeGet name = none → File.Get convert nativeGet name = none)
      ∧ (∀ x y, nativeGet name = some x → convert x = some y →
          File.Get convert nativeGet name = some y)
      ∧ (∀ x, nativeGet name = some x → convert x = none →
          File.Get convert nativeGet name = some x) := by
  refine ⟨?_, ?_, ?_⟩
  · intro h
    rw [File.Get, h]
    rfl
  · intro x y hx hy
    rw [File.Get, hx]
    simp [asrootpy, hy]
  · intro x hx hy
    rw [File.Get, hx]
    simp [asrootpy, hy]

/-- Witness for claim C4 at a concrete container holding one entity named
`"h"` (converted form: successor), with `"g"` absent. -/
theorem file_get_spec_witness :
    File.Get (fun x => some (x + 1))
        (fun n => if n = "h" then some 10 else none) "h" = some 11
      ∧ File.Get (fun x : ℕ => some (x + 1))
          (fun n => if n = "h" then some 10 else none) "g" = none
      ∧ File.Get (fun _ : ℕ => none)
          (fun n => if n = "h" then some 10 else none) "h" = some 10 := by
  refine ⟨?_, ?_, ?_⟩
  · exact (file_get_spec (fun x => some (x + 1))
      (fun n => if n = "h" then some 10 else none) "h").2.1 10 11
      (by decide) (by decide)
  · exact (file_get_spec (fun x : ℕ => some (x + 1))
      (fun n => if n = "h" then some 10 else none) "g").1 (by decide)
  · exact (file_get_spec (fun _ : ℕ => none)
      (fun n => if n = "h" then some 10 else none) "h").2.2 10
      (by decide) rfl

/-- Claim C10: `File.__init__` silently discards every keyword argument:
the native constructor receives exactly the positional arguments, so two
calls differing only in keyword arguments (e.g. a mode passed by
keyword) construct identically. -/
theorem file_init_drops_kwargs {α β : Type} (nativeInit : List String → α)
    (args : List String) (kwargs kwargs2 : List (String × β)) :
    File.init nativeInit args kwargs = nativeInit args
      ∧ File.init nativeInit args kwargs
        = File.init nativeInit args kwargs2 := ⟨rfl, rfl⟩

/-! Keepalive edges: `_PadBase.cd` and `Pad.Draw`. -/

/-- Modelled from the spec: `keepalive` lives in
`rootpy/memory/keepalive.py`, which is not among the sources; per the
spec, the keepalive registry is a "process-wide map recording ownership
edges", and registering adds the `(owner, owned)` pair.  Surfaces are
identified by elements of a type `α` with decidable identity
(Python `is`). -/
def keepalive {α : Type} (owner owned : α) (reg : List (α × α)) :
    List (α × α) :=
  (owner, owned) :: reg

/-- `_PadBase.cd(*args)` (canvas.py lines 26-30): convert the native
`cd` result (conversion keeps surface identity; `none` models a
null/falsy result), register `keepalive(self, pad)` when the result is
truthy and is not `self`, and return the converted result.
`nativeResult` is the oracle value of `super().cd(*args)`. -/
def PadBase.cd {α : Type} [DecidableEq α] (self : α)
    (nativeResult : Option α) (reg : List (α × α)) :
    Option α × List (α × α) :=
  match nativeResult with
  | none => (none, reg)
  | some pad =>
      (some pad, if pad ≠ self then keepalive self pad reg else reg)

/-- `Pad.Draw(*args)` (canvas.py lines 141-145): delegate to the native
draw (whose return value `nativeRet` passes through), then register
`keepalive(canvas, self)` unconditionally, where `canvas` is
`self.GetCanvas()`. -/
def Pad.Draw {α β : Type} (self canvas : α) (nativeRet : β)
    (reg : List (α × α)) : β × List (α × α) :=
  (nativeRet, keepalive canvas self reg)

/-- Claim C5: `cd` returns the converted native result, and mutates the
registry exactly by adding the edge `(self, returned pad)` when a
surface is returned that differs from `self`, leaving the registry
unchanged otherwise (null result or `self` returned); `Pad.Draw` passes
the native draw result through and unconditionally adds the edge
`(owning canvas, self)`.  These are the only registry mutations. -/
theorem cd_draw_keepalive {α β : Type} [DecidableEq α] (self canvas : α)
    (nativeResult : Option α) (nativeRet : β) (reg : List (α × α)) :
    (PadBase.cd self nativeResult reg).1 = nativeResult
      ∧ (∀ pad, nativeResult = some pad → pad ≠ self →
          (PadBase.cd self nativeResult reg).2 = (self, pad) :: reg)
      ∧ (nativeResult = none ∨ nativeResult = some self →
          (PadBase.cd self nativeResult reg).2 = reg)
      ∧ (Pad.Draw self canvas nativeRet reg).1 = nativeRet
      ∧ (Pad.Draw self canvas nativeRet reg).2 = (canvas, self) :: reg := by
  refine ⟨?_, ?_, ?_, rfl, rfl⟩
  · cases nativeResult with
    | none => rfl
    | some pad => rfl
  · rintro pad rfl hne
    simp [PadBase.cd, hne, keepalive]
  · rintro (rfl | rfl)
    · rfl
    · simp [PadBase.cd]

/-- Witness for claim C5 over surfaces identified by naturals: `cd` on
surface `1` returning surface `2` adds the edge `(1, 2)`; returning `1`
itself, or null, leaves the registry unchanged; `Draw` of pad `2` on
canvas `0` adds `(0, 2)`. -/
theorem cd_draw_keepalive_witness :
    (PadBase.cd 1 (some 2) ([] : List (ℕ × ℕ))).2 = [(1, 2)]
      ∧ (PadBase.cd 1 (some 1) ([] : List (ℕ × ℕ))).2 = []
      ∧ (PadBase.cd 1 (none : Option ℕ) ([] : List (ℕ × ℕ))).2 = []
      ∧ (Pad.Draw 2 0 () ([] : List (ℕ × ℕ))).2 = [(0, 2)] := by
  refine ⟨?_, ?_, ?_, ?_⟩
  · exact (cd_draw_keepalive 1 0 (some 2) () ([] : List (ℕ × ℕ))).2.1 2
      rfl (by decide)
  · exact (cd_draw_keepalive 1 0 (some 1) () ([] : List (ℕ × ℕ))).2.2.1
      (Or.inr rfl)
  · exact (cd_draw_keepalive 1 0 (none : Option ℕ) ()
      ([] : List (ℕ × ℕ))).2.2.1 (Or.inl rfl)
  · exact (cd_draw_keepalive 2 0 (none : Option ℕ) ()
      ([] : List (ℕ × ℕ))).2.2.2.2

/-! Scoped current surface: the enter and exit methods. -/

/-- The global current-surface state (`ROOT.gPad`): the currently
current surface, or `none`. -/
structure GState (α : Type) : Type where
  gPad : Option α

/-- `_PadBase.__enter__` (canvas.py lines 105-108): record the
previously current surface (`self._prev_pad = ROOT.gPad.func()`), then
make `self` current via `cd()`.  Returns the recorded previous surface
together with the new global state. -/
def PadBase.enter {α : Type} (self : α) (st : GState α) :
    Option α × GState α :=
  (st.gPad, ⟨some self⟩)

/-- Modelled from the spec: `invisible_canvas` lives in
`rootpy/context.py`, which is not among the sources; per the spec, the
prior-less exit path resets the global current-surface state to none "by
transiently creating and discarding an invisible surface".  Its net
effect on the global state is `gPad := none`. -/
def invisibleCanvasReset {α : Type} (st : GState α) : GState α :=
  ⟨none⟩

/-- `_PadBase.__exit__` (canvas.py lines 110-121): if a previous surface
was recorded, make it current again; otherwise, if some surface is
currently current, reset the global state to none via the
invisible-canvas trick; return `False` (the exception, if any, is not
suppressed).  `st` is the global state at exit time — arbitrary, since
the body of the `with` block may have changed it, and the same cleanup
runs on abnormal exit. -/
def PadBase.exit {α : Type} (prev : Option α) (st : GState α) :
    GState α × Bool :=
  match prev with
  | some p => (⟨some p⟩, false)
  | none =>
      match st.gPad with
      | some _ => (invisibleCanvasReset st, false)
      | none => (st, false)

/-- Claim C6: For every entry/exit of the scoped-current-surface context,
whatever the global state at exit time (so in particular on abnormal
exit, where the same `__exit__` runs), the global current-surface state
after exit equals the surface current on entry — or none when no surface
was current on entry; and the exception is never suppressed
(`__exit__` returns `False`). -/
theorem enter_exit_restores (α : Type) (self : α) (st0 : GState α)
    (stExit : GState α) :
    (PadBase.exit (PadBase.enter self st0).1 stExit).1.gPad = st0.gPad
      ∧ (PadBase.exit (PadBase.enter self st0).1 stExit).2 = false := by
  obtain ⟨g0⟩ := st0
  obtain ⟨g1⟩ := stExit
  cases g0 with
  | none =>
      cases g1 with
      | none => exact ⟨rfl, rfl⟩
      | some q => exact ⟨rfl, rfl⟩
  | some p => exact ⟨rfl, rfl⟩

/-! Canvas construction and size setters (canvas.py lines 181-256). -/

/-- The global default style (`ROOT.gStyle`): default canvas width,
height, x and y. -/
structure Style : Type where
  defW : ℤ
  defH : ℤ
  defX : ℤ
  defY : ℤ
deriving DecidableEq

/-- The windowing environment the native toolkit runs in: whether
graphics are in batch/headless mode (`IsBatch`), and the window
decoration deltas, i.e. how much smaller the paintable client area is
than a requested decorated window size.  Modelled from the spec's
description of the native toolkit: "Canvas dimensions include the window
manager's decorations by default in vanilla ROOT", and the spec's open
question notes the deltas are platform-specific, so they are kept
abstract here. -/
structure WindowSystem : Type where
  batch : Bool
  dw : ℤ
  dh : ℤ
deriving DecidableEq

/-- The observable state of a native canvas: paintable client size
(`GetWw`/`GetWh`), window position, batch flag, and the
`size_includes_decorations` attribute the wrapper stores on it. -/
structure CanvasState : Type where
  ww : ℤ
  wh : ℤ
  wx : ℤ
  wy : ℤ
  batch : Bool
  size_includes_decorations : Bool
deriving DecidableEq

/-- The native `TCanvas` constructor at position `(x, y)` with requested
size `(w, h)`: in batch mode the canvas buffer gets the requested size;
in windowed mode the requested size is the decorated window size, so the
paintable client area comes out smaller by the decoration deltas. -/
def TCanvas.new (sys : WindowSystem) (x y w h : ℤ) : CanvasState :=
  if sys.batch then ⟨w, h, x, y, true, false⟩
  else ⟨w - sys.dw, h - sys.dh, x, y, false, false⟩

/-- Native `SetCanvasSize`: sets the paintable size directly. -/
def SetCanvasSize (st : CanvasState) (w h : ℤ) : CanvasState :=
  { st with ww := w, wh := h }

/-- Native `SetWindowSize`: sets the decorated window size, so the
paintable client area becomes the argument minus the decoration
deltas. -/
def SetWindowSize (sys : WindowSystem) (st : CanvasState) (w h : ℤ) :
    CanvasState :=
  { st with ww := w - sys.dw, wh := h - sys.dh }

/-- `Canvas.__init__` (canvas.py lines 181-210): resolve unset
width/height/x/y from the global default style, call the native
constructor, and — unless `size_includes_decorations` — fix the size up:
in batch mode set the canvas buffer size directly, otherwise grow the
window by the delta between the requested and the actual client size;
finally store the `size_includes_decorations` attribute. -/
def Canvas.init (sys : WindowSystem) (style : Style)
    (width? height? x? y? : Option ℤ)
    (size_includes_decorations : Bool) : CanvasState :=
  let width := width?.getD style.defW
  let height := height?.getD style.defH
  let x := x?.getD style.defX
  let y := y?.getD style.defY
  let st := TCanvas.new sys x y width height
  let st :=
    if size_includes_decorations then st
    else if st.batch then SetCanvasSize st width height
    else SetWindowSize sys st (width + (width - st.ww))
          (height + (height - st.wh))
  { st with size_includes_decorations := size_includes_decorations }

/-- `Canvas.width_pixels` getter (canvas.py lines 227-229): returns
`GetWw()`, the paintable pixel width. -/
def CanvasState.width_pixels (st : CanvasState) : ℤ := st.ww

/-- `Canvas.height_pixels` getter (canvas.py lines 250-252): returns
`GetWh()`, the paintable pixel height. -/
def CanvasState.height_pixels (st : CanvasState) : ℤ := st.wh

/-- `Canvas.width` setter (canvas.py lines 216-225): in batch mode set
the canvas size directly; otherwise set the window size to the requested
value and, when `size_includes_decorations` is false, re-set it grown by
the delta between requested and actual client size. -/
def Canvas.setWidth (sys : WindowSystem) (st : CanvasState) (value : ℤ) :
    CanvasState :=
  if st.batch then SetCanvasSize st value st.wh
  else
    let curr_height := st.wh
    let st1 := SetWindowSize sys st value curr_height
    if st.size_includes_decorations then st1
    else SetWindowSize sys st1 (value + (value - st1.ww))
          (curr_height + (curr_height - st1.wh))

/-- `Canvas.height` setter (canvas.py lines 239-248), symmetric to the
width setter. -/
def Canvas.setHeight (sys : WindowSystem) (st : CanvasState) (value : ℤ) :
    CanvasState :=
  if st.batch then SetCanvasSize st st.ww value
  else
    let curr_width := st.ww
    let st1 := SetWindowSize sys st curr_width value
    if st.size_includes_decorations then st1
    else SetWindowSize sys st1 (curr_width + (curr_width - st1.ww))
          (value + (value - st1.wh))

/-- Claim C7: Canvas construction resolves unset width/height/x/y from the
global default style, and with `size_includes_decorations = False` the
resulting paintable pixel size equals the requested size — in batch mode
(buffer set directly) and in windowed mode (window grown by the
requested-minus-actual client delta) alike, for every decoration
delta. -/
theorem canvas_init_paintable_size (sys : WindowSystem) (style : Style)
    (w h x y : ℤ) :
    ((Canvas.init sys style (some w) (some h) (some x) (some y)
        false).width_pixels = w
      ∧ (Canvas.init sys style (some w) (some h) (some x) (some y)
          false).height_pixels = h)
    ∧ ((Canvas.init sys style none none none none false).width_pixels
          = style.defW
      ∧ (Canvas.init sys style none none none none false).height_pixels
          = style.defH
      ∧ (Canvas.init sys style none none none none false).wx = style.defX
      ∧ (Canvas.init sys style none none none none false).wy
          = style.defY) := by
  cases hb : sys.batch <;>
    simp [Canvas.init, TCanvas.new, SetCanvasSize, SetWindowSize, hb,
      CanvasState.width_pixels, CanvasState.height_pixels]

/-- Claim C8, counterexample: The claim fails for a windowed canvas
constructed with `size_includes_decorations = True` on a window system
with nonzero decoration deltas: setting `width = 800` yields
`width_pixels = 790`, not 800, and changes `height_pixels` from 295
to 290. -/
theorem canvas_width_setter_cex :
    ¬ ((Canvas.setWidth ⟨false, 10, 5⟩
          (Canvas.init ⟨false, 10, 5⟩ ⟨700, 500, 0, 0⟩
            (some 500) (some 300) (some 0) (some 0) true) 800).width_pixels
        = 800
      ∧ (Canvas.setWidth ⟨false, 10, 5⟩
          (Canvas.init ⟨false, 10, 5⟩ ⟨700, 500, 0, 0⟩
            (some 500) (some 300) (some 0) (some 0) true) 800).height_pixels
        = (Canvas.init ⟨false, 10, 5⟩ ⟨700, 500, 0, 0⟩
            (some 500) (some 300) (some 0) (some 0) true).height_pixels) := by
  decide

/-- Claim C8, amended: For every canvas that is in batch mode or has
`size_includes_decorations` false (in particular every canvas built with
the default construction), assigning `width = v` makes `width_pixels`
equal `v` and leaves `height_pixels` unchanged; in batch mode the setter
sets the canvas size directly, and the decoration-compensation delta is
applied only when `size_includes_decorations` is false. -/
theorem canvas_width_setter_sets_width (sys : WindowSystem)
    (st : CanvasState) (v : ℤ)
    (h : st.batch = true ∨ st.size_includes_decorations = false) :
    (Canvas.setWidth sys st v).width_pixels = v
      ∧ (Canvas.setWidth sys st v).height_pixels = st.height_pixels := by
  cases hb : st.batch with
  | true =>
      simp [Canvas.setWidth, SetCanvasSize, hb,
        CanvasState.width_pixels, CanvasState.height_pixels]
  | false =>
      have hsid : st.size_includes_decorations = false := by
        rcases h with h | h
        · rw [hb] at h
          exact absurd h (by decide)
        · exact h
      simp [Canvas.setWidth, SetWindowSize, hb, hsid,
        CanvasState.width_pixels, CanvasState.height_pixels]

/-- Witness for the amended claim C8: a windowed canvas constructed with
the defaults (`size_includes_decorations = False`, requested size
500×300) gets `width_pixels = 800` and keeps `height_pixels = 300` after
`width = 800`. -/
theorem canvas_width_setter_sets_width_witness :
    (Canvas.setWidth ⟨false, 10, 5⟩
        (Canvas.init ⟨false, 10, 5⟩ ⟨700, 500, 0, 0⟩
          (some 500) (some 300) (some 0) (some 0) false) 800).width_pixels
      = 800
    ∧ (Canvas.setWidth ⟨false, 10, 5⟩
        (Canvas.init ⟨false, 10, 5⟩ ⟨700, 500, 0, 0⟩
          (some 500) (some 300) (some 0) (some 0) false) 800).height_pixels
      = (Canvas.init ⟨false, 10, 5⟩ ⟨700, 500, 0, 0⟩
          (some 500) (some 300) (some 0) (some 0) false).height_pixels :=
  canvas_width_setter_sets_width ⟨false, 10, 5⟩
    (Canvas.init ⟨false, 10, 5⟩ ⟨700, 500, 0, 0⟩
      (some 500) (some 300) (some 0) (some 0) false) 800
    (Or.inr (by decide))
